import Mathlib

/-!
Verification of the power-triangle program (src/power-triangle.py).

The program has two pieces of observable logic:
* the keystroke validators `validate_active_power` and `validate_power_factor`
  (lines 54-70), which call Python's `float` on the entry text and compare the
  result against 0 and 1; and
* the computational core of `update_plot` (lines 76-84), a four-line branch
  computing the triangle quantities (P, Q, S, angle) from the two inputs.

The validators are embedded computably: Python float values are modelled by
`PyFloat` (an exact rational, an infinity, or NaN; IEEE-754 rounding of finite
literals is not modelled), `pyFloat` implements the acceptance grammar of
Python's `float(str)`, and `PyFloat.le` implements Python comparison semantics
where every comparison involving NaN is false.

The numeric core is embedded over the real numbers with `Real.arccos`,
`Real.tan` and real division standing for their NumPy counterparts.
-/

/-- A value of Python's `float` type as far as the validators observe it:
a finite value (modelled exactly as a rational), positive infinity, negative
infinity, or NaN. -/
inductive PyFloat where
  | finite (q : ℚ)
  | inf
  | negInf
  | nan
deriving DecidableEq

/-- Python's `x <= y` on float values: any comparison involving NaN is false;
infinities compare as extremes; finite values compare as rationals. -/
def PyFloat.le : PyFloat → PyFloat → Bool
  | .nan, _ => false
  | _, .nan => false
  | .negInf, _ => true
  | _, .negInf => false
  | _, .inf => true
  | .inf, _ => false
  | .finite a, .finite b => decide (a ≤ b)

/-- Continuation of a Python digit part: further digits, with single
underscores allowed between digits. Returns the digits read and the rest of
the input. -/
def digitTail : List Char → List Char × List Char
  | '_' :: c :: cs =>
    if c.isDigit then
      let p := digitTail cs
      (c :: p.1, p.2)
    else ([], '_' :: c :: cs)
  | c :: cs =>
    if c.isDigit then
      let p := digitTail cs
      (c :: p.1, p.2)
    else ([], c :: cs)
  | [] => ([], [])

/-- A Python `digitpart`: at least one digit, with single underscores allowed
between digits. Fails if the input does not start with a digit. -/
def digitPart : List Char → Option (List Char × List Char)
  | c :: cs =>
    if c.isDigit then
      let p := digitTail cs
      some (c :: p.1, p.2)
    else none
  | [] => none

/-- Numeric value of a list of decimal digits. -/
def digitsVal (l : List Char) : ℕ :=
  l.foldl (fun n c => 10 * n + (c.toNat - Char.toNat '0')) 0

/-- Value of a mantissa with integer digits `ds` and fraction digits `fs`. -/
def mantissaVal (ds fs : List Char) : ℚ :=
  (digitsVal ds : ℚ) + (digitsVal fs : ℚ) / 10 ^ fs.length

/-- Parse an optional exponent (`e`/`E`, optional sign, digit part) applied to
mantissa value `m`; the whole remaining input must be consumed. -/
def parseExpPart (m : ℚ) : List Char → Option ℚ
  | [] => some m
  | c :: cs =>
    if c = 'e' ∨ c = 'E' then
      let p : Bool × List Char :=
        match cs with
        | '+' :: r => (false, r)
        | '-' :: r => (true, r)
        | r => (false, r)
      match digitPart p.2 with
      | some (ds, []) =>
        some (if p.1 then m / 10 ^ digitsVal ds else m * 10 ^ digitsVal ds)
      | _ => none
    else none

/-- Parse an unsigned Python float literal (digit part and/or fraction, then
an optional exponent); the whole input must be consumed. -/
def parseNumber (l : List Char) : Option ℚ :=
  match digitPart l with
  | some (ds, rest) =>
    match rest with
    | '.' :: rest2 =>
      match digitPart rest2 with
      | some (fs, rest3) => parseExpPart (mantissaVal ds fs) rest3
      | none => parseExpPart (mantissaVal ds []) rest2
    | _ => parseExpPart (mantissaVal ds []) rest
  | none =>
    match l with
    | '.' :: rest2 =>
      match digitPart rest2 with
      | some (fs, rest3) => parseExpPart (mantissaVal [] fs) rest3
      | none => none
    | _ => none

/-- Strip leading and trailing whitespace. -/
def stripChars (l : List Char) : List Char :=
  ((l.dropWhile Char.isWhitespace).reverse.dropWhile Char.isWhitespace).reverse

/-- Python's `float(str)` conversion: optional surrounding whitespace, an
optional sign, then either a case-insensitive spelling of infinity
(`inf`/`infinity`) or NaN, or a decimal literal with single underscores
between digits and an optional exponent. Returns `none` exactly where Python
raises `ValueError`. Finite values are kept as exact rationals. -/
def pyFloat (s : String) : Option PyFloat :=
  let l := stripChars s.data
  let sb : Bool × List Char :=
    match l with
    | '+' :: r => (false, r)
    | '-' :: r => (true, r)
    | r => (false, r)
  let low := sb.2.map Char.toLower
  if low = ['i', 'n', 'f'] ∨ low = ['i', 'n', 'f', 'i', 'n', 'i', 't', 'y'] then
    some (if sb.1 then .negInf else .inf)
  else if low = ['n', 'a', 'n'] then
    some .nan
  else
    (parseNumber sb.2).map fun q => .finite (if sb.1 then -q else q)

/-- Embeds `PowerTriangleSimulation.validate_active_power` (lines 54-61):
the empty string is accepted; otherwise the text is accepted iff
`float(new_value)` succeeds and the resulting value compares `>= 0`. -/
def validate_active_power (new_value : String) : Bool :=
  if new_value = "" then true
  else
    match pyFloat new_value with
    | some value => PyFloat.le (.finite 0) value
    | none => false

/-- Embeds `PowerTriangleSimulation.validate_power_factor` (lines 63-70):
the empty string is accepted; otherwise the text is accepted iff
`float(new_value)` succeeds and `0 <= value <= 1` holds, with Python's
short-circuit chained comparison. -/
def validate_power_factor (new_value : String) : Bool :=
  if new_value = "" then true
  else
    match pyFloat new_value with
    | some value => PyFloat.le (.finite 0) value && PyFloat.le value (.finite 1)
    | none => false

/-- The string parses as a (finite) real number: `float` succeeds and yields a
finite value. Spec-side notion used to state the validator claims. -/
def parsesAsReal (s : String) : Option ℚ :=
  match pyFloat s with
  | some (.finite q) => some q
  | _ => none

/-- The triangle quantities produced by one run of the computation. -/
structure PowerTriangleResult where
  P : ℝ
  Q : ℝ
  S : ℝ
  angle : ℝ

/-- Embeds the computational core of `PowerTriangleSimulation.update_plot`
(lines 76-84): if `pf == 0` then `P = 0`, `Q = S = P_input`,
`angle = pi / 2`; else `P = P_input`, `angle = arccos pf`,
`Q = P * tan angle`, `S = P / pf`. -/
noncomputable def compute (P_input pf : ℝ) : PowerTriangleResult :=
  if pf = 0 then
    { P := 0, Q := P_input, S := P_input, angle := Real.pi / 2 }
  else
    { P := P_input
      Q := P_input * Real.tan (Real.arccos pf)
      S := P_input / pf
      angle := Real.arccos pf }

/-- The input state `update_plot` reads: the two tk entry variables. The rest
of the widget state is display-only output and never read by the computation. -/
structure SimState where
  active_power : ℝ
  power_factor : ℝ

/-- Embeds the observable behaviour of `update_plot` (lines 72-84): it reads
the two input variables, recomputes the result from scratch, and leaves the
inputs unchanged (the method only rewrites the plot and the labels). -/
noncomputable def update_plot (s : SimState) : PowerTriangleResult × SimState :=
  (compute s.active_power s.power_factor, s)

lemma compute_of_ne_zero {a pf : ℝ} (h0 : pf ≠ 0) :
    compute a pf =
      { P := a
        Q := a * Real.tan (Real.arccos pf)
        S := a / pf
        angle := Real.arccos pf } := by
  simp [compute, h0]

lemma compute_of_zero (a : ℝ) :
    compute a 0 = { P := 0, Q := a, S := a, angle := Real.pi / 2 } := by
  simp [compute]

lemma sqrt_P_sq_add_Q_sq {a pf : ℝ} (ha : 0 ≤ a) (h0 : 0 < pf) (h1 : pf ≤ 1) :
    Real.sqrt (a ^ 2 + (a * Real.tan (Real.arccos pf)) ^ 2) = a / pf := by
  have hs : Real.sqrt (1 - pf ^ 2) ^ 2 = 1 - pf ^ 2 :=
    Real.sq_sqrt (by nlinarith)
  have key : a ^ 2 + (a * Real.tan (Real.arccos pf)) ^ 2 = (a / pf) ^ 2 := by
    rw [Real.tan_arccos]
    field_simp
    nlinarith [hs]
  rw [key, Real.sqrt_sq (div_nonneg ha h0.le)]

/-- C1: for every activePowerInput ≥ 0 and every powerFactor in (0, 1], the
computation sets P = activePowerInput, angle = arccos powerFactor,
Q = P * tan angle, and S = P / powerFactor. -/
theorem C1_general_branch (a pf : ℝ) (ha : 0 ≤ a) (h0 : 0 < pf) (h1 : pf ≤ 1) :
    (compute a pf).P = a ∧
    (compute a pf).angle = Real.arccos pf ∧
    (compute a pf).Q = a * Real.tan (Real.arccos pf) ∧
    (compute a pf).S = a / pf := by
  rw [compute_of_ne_zero (ne_of_gt h0)]
  exact ⟨rfl, rfl, rfl, rfl⟩

/-- Witness for C1 at activePowerInput = 100, powerFactor = 1. -/
theorem C1_general_branch_witness :
    (0 : ℝ) ≤ 100 ∧ (0 : ℝ) < 1 ∧ (1 : ℝ) ≤ 1 ∧
      ((compute 100 1).P = 100 ∧
       (compute 100 1).angle = Real.arccos 1 ∧
       (compute 100 1).Q = 100 * Real.tan (Real.arccos 1) ∧
       (compute 100 1).S = 100 / 1) :=
  ⟨by norm_num, by norm_num, le_refl 1,
   C1_general_branch 100 1 (by norm_num) (by norm_num) (le_refl 1)⟩

/-- C2: for every activePowerInput ≥ 0, when powerFactor = 0 the computation
returns P = 0, Q = activePowerInput, S = activePowerInput, angle = pi / 2. -/
theorem C2_degenerate_branch (a : ℝ) (ha : 0 ≤ a) :
    (compute a 0).P = 0 ∧ (compute a 0).Q = a ∧ (compute a 0).S = a ∧
    (compute a 0).angle = Real.pi / 2 := by
  rw [compute_of_zero]
  exact ⟨rfl, rfl, rfl, rfl⟩

/-- Witness for C2 at activePowerInput = 50. -/
theorem C2_degenerate_branch_witness :
    (0 : ℝ) ≤ 50 ∧
      ((compute 50 0).P = 0 ∧ (compute 50 0).Q = 50 ∧ (compute 50 0).S = 50 ∧
       (compute 50 0).angle = Real.pi / 2) :=
  ⟨by norm_num, C2_degenerate_branch 50 (by norm_num)⟩

/-- C3 counterexample: the claim states the active-power validator accepts a
string iff it is empty or parses as a real number ≥ 0; but the concrete input
"inf" is accepted (float("inf") succeeds and inf >= 0 is True in Python) while
it is neither empty nor a real number, so the stated iff is false. -/
theorem C3_counterexample :
    ¬ (∀ s : String, validate_active_power s = true ↔
        (s = "" ∨ ∃ q : ℚ, parsesAsReal s = some q ∧ 0 ≤ q)) := by
  intro h
  rcases (h "inf").mp (by decide) with h1 | ⟨q, hq, _⟩
  · exact absurd h1 (by decide)
  · rw [show parsesAsReal "inf" = none from by decide] at hq
    exact Option.noConfusion hq

/-- C3 (amended): the active-power validator accepts a string iff it is the
empty string, or it parses as a real number ≥ 0, or it is a spelling of
positive infinity; the power-factor validator accepts a string iff it is the
empty string or it parses as a real number in [0, 1]. Every other string
(including every NaN spelling) is rejected. -/
theorem C3_validator_characterization (s : String) :
    (validate_active_power s = true ↔
      (s = "" ∨ (∃ q : ℚ, parsesAsReal s = some q ∧ 0 ≤ q) ∨
        pyFloat s = some PyFloat.inf)) ∧
    (validate_power_factor s = true ↔
      (s = "" ∨ ∃ q : ℚ, parsesAsReal s = some q ∧ 0 ≤ q ∧ q ≤ 1)) := by
  by_cases hs : s = ""
  · subst hs
    simp [validate_active_power, validate_power_factor]
  · unfold validate_active_power validate_power_factor parsesAsReal
    rcases hv : pyFloat s with _ | v
    · simp [hs, hv]
    · cases v <;> simp [hs, hv, PyFloat.le]

/-- C4: for every activePowerInput ≥ 0 and powerFactor in (0, 1], the outputs
satisfy S = sqrt (P ^ 2 + Q ^ 2). -/
theorem C4_pythagorean (a pf : ℝ) (ha : 0 ≤ a) (h0 : 0 < pf) (h1 : pf ≤ 1) :
    (compute a pf).S = Real.sqrt ((compute a pf).P ^ 2 + (compute a pf).Q ^ 2) := by
  rw [compute_of_ne_zero (ne_of_gt h0)]
  exact (sqrt_P_sq_add_Q_sq ha h0 h1).symm

/-- Witness for C4 at activePowerInput = 100, powerFactor = 1. -/
theorem C4_pythagorean_witness :
    (0 : ℝ) ≤ 100 ∧ (0 : ℝ) < 1 ∧ (1 : ℝ) ≤ 1 ∧
      (compute 100 1).S =
        Real.sqrt ((compute 100 1).P ^ 2 + (compute 100 1).Q ^ 2) :=
  ⟨by norm_num, by norm_num, le_refl 1,
   C4_pythagorean 100 1 (by norm_num) (by norm_num) (le_refl 1)⟩

/-- C5: for every powerFactor > 0 the computation takes the general branch,
whose division S = P / powerFactor has a nonzero divisor: the quotient
genuinely satisfies S * powerFactor = activePowerInput, so the output is a
well-defined finite real and no division by zero occurs. -/
theorem C5_division_guarded (a pf : ℝ) (h0 : 0 < pf) :
    pf ≠ 0 ∧ (compute a pf).S * pf = a := by
  have hne : pf ≠ 0 := ne_of_gt h0
  refine ⟨hne, ?_⟩
  rw [compute_of_ne_zero hne]
  exact div_mul_cancel₀ a hne

/-- Witness for C5 at activePowerInput = 100, powerFactor = 1 / 2. -/
theorem C5_division_guarded_witness :
    (0 : ℝ) < 1 / 2 ∧
      ((1 : ℝ) / 2 ≠ 0 ∧ (compute 100 (1 / 2)).S * (1 / 2) = 100) :=
  ⟨by norm_num, C5_division_guarded 100 (1 / 2) (by norm_num)⟩

/-- C6: for every valid input (activePowerInput ≥ 0 and powerFactor in
[0, 1]), the computed Q and S are nonnegative. -/
theorem C6_nonneg_outputs (a pf : ℝ) (ha : 0 ≤ a) (h0 : 0 ≤ pf) (h1 : pf ≤ 1) :
    0 ≤ (compute a pf).Q ∧ 0 ≤ (compute a pf).S := by
  rcases eq_or_lt_of_le h0 with h | h
  · rw [← h, compute_of_zero]
    exact ⟨ha, ha⟩
  · rw [compute_of_ne_zero (ne_of_gt h)]
    refine ⟨?_, div_nonneg ha h.le⟩
    rw [Real.tan_arccos]
    exact mul_nonneg ha (div_nonneg (Real.sqrt_nonneg _) h.le)

/-- Witness for C6 at activePowerInput = 100, powerFactor = 1 / 2. -/
theorem C6_nonneg_outputs_witness :
    (0 : ℝ) ≤ 100 ∧ (0 : ℝ) ≤ 1 / 2 ∧ (1 : ℝ) / 2 ≤ 1 ∧
      (0 ≤ (compute 100 (1 / 2)).Q ∧ 0 ≤ (compute 100 (1 / 2)).S) :=
  ⟨by norm_num, by norm_num, by norm_num,
   C6_nonneg_outputs 100 (1 / 2) (by norm_num) (by norm_num) (by norm_num)⟩

/-- C7: for every activePowerInput ≥ 0, powerFactor = 1 yields angle = 0,
Q = 0 and S = P = activePowerInput. -/
theorem C7_unity_pf (a : ℝ) (ha : 0 ≤ a) :
    (compute a 1).angle = 0 ∧ (compute a 1).Q = 0 ∧ (compute a 1).S = a ∧
    (compute a 1).P = a := by
  rw [compute_of_ne_zero one_ne_zero]
  refine ⟨Real.arccos_one, ?_, div_one a, rfl⟩
  rw [Real.arccos_one, Real.tan_zero, mul_zero]

/-- Witness for C7 at activePowerInput = 0. -/
theorem C7_unity_pf_witness :
    (0 : ℝ) ≤ 0 ∧
      ((compute 0 1).angle = 0 ∧ (compute 0 1).Q = 0 ∧ (compute 0 1).S = 0 ∧
       (compute 0 1).P = 0) :=
  ⟨le_refl 0, C7_unity_pf 0 (le_refl 0)⟩

/-- C8: the computation is deterministic and stateless: its result depends
only on the two input variables (two states agreeing on them produce the same
result), and running it twice in a row yields the identical result and leaves
the input state unchanged. -/
theorem C8_deterministic_stateless (s₁ s₂ : SimState)
    (hP : s₁.active_power = s₂.active_power)
    (hpf : s₁.power_factor = s₂.power_factor) :
    (update_plot s₁).1 = (update_plot s₂).1 ∧
    (update_plot (update_plot s₁).2).1 = (update_plot s₁).1 ∧
    (update_plot (update_plot s₁).2).2 = (update_plot s₁).2 := by
  unfold update_plot
  rw [hP, hpf]
  exact ⟨rfl, rfl, rfl⟩

/-- Witness for C8 at the state (active_power = 100, power_factor = 4 / 5). -/
theorem C8_deterministic_stateless_witness :
    (update_plot ⟨100, 4 / 5⟩).1 = (update_plot ⟨100, 4 / 5⟩).1 ∧
    (update_plot (update_plot ⟨100, 4 / 5⟩).2).1 = (update_plot ⟨100, 4 / 5⟩).1 ∧
    (update_plot (update_plot ⟨100, 4 / 5⟩).2).2 = (update_plot ⟨100, 4 / 5⟩).2 :=
  C8_deterministic_stateless ⟨100, 4 / 5⟩ ⟨100, 4 / 5⟩ rfl rfl

/-- C9: on the whole valid domain, the degenerate case included, the outputs
satisfy S = sqrt (P ^ 2 + Q ^ 2), powerFactor = cos angle, and the angle lies
in [0, pi / 2]. -/
theorem C9_full_domain_invariants (a pf : ℝ) (ha : 0 ≤ a) (h0 : 0 ≤ pf)
    (h1 : pf ≤ 1) :
    (compute a pf).S = Real.sqrt ((compute a pf).P ^ 2 + (compute a pf).Q ^ 2) ∧
    pf = Real.cos ((compute a pf).angle) ∧
    0 ≤ (compute a pf).angle ∧ (compute a pf).angle ≤ Real.pi / 2 := by
  rcases eq_or_lt_of_le h0 with h | h
  · rw [← h, compute_of_zero]
    refine ⟨?_, Real.cos_pi_div_two.symm, ?_, le_refl _⟩
    · have hz : (0 : ℝ) ^ 2 + a ^ 2 = a ^ 2 := by ring
      rw [hz, Real.sqrt_sq ha]
    · linarith [Real.pi_pos]
  · rw [compute_of_ne_zero (ne_of_gt h)]
    exact ⟨(sqrt_P_sq_add_Q_sq ha h h1).symm,
      (Real.cos_arccos (by linarith) h1).symm,
      Real.arccos_nonneg pf, Real.arccos_le_pi_div_two.mpr h0⟩

/-- Witness for C9 at activePowerInput = 50, powerFactor = 0. -/
theorem C9_full_domain_invariants_witness :
    (0 : ℝ) ≤ 50 ∧ (0 : ℝ) ≤ 0 ∧ (0 : ℝ) ≤ 1 ∧
      ((compute 50 0).S =
          Real.sqrt ((compute 50 0).P ^ 2 + (compute 50 0).Q ^ 2) ∧
        (0 : ℝ) = Real.cos ((compute 50 0).angle) ∧
        0 ≤ (compute 50 0).angle ∧ (compute 50 0).angle ≤ Real.pi / 2) :=
  ⟨by norm_num, le_refl 0, by norm_num,
   C9_full_domain_invariants 50 0 (by norm_num) (le_refl 0) (by norm_num)⟩

/-- C10: the validators follow Python float parsing: "inf" is accepted by the
active-power validator (float("inf") succeeds and inf >= 0 is True), while
"nan" is rejected by both validators because every NaN comparison is false. -/
theorem C10_nonfinite_spellings :
    validate_active_power "inf" = true ∧
    validate_active_power "nan" = false ∧
    validate_power_factor "nan" = false := by
  refine ⟨by decide, by decide, by decide⟩
